import Mathlib

/-!
Verification of Personal-Python-Projects against its specification.

Shallow embedding of the parts of the repository the claims concern:

* `platypus-databridge/main.py` — scheduling (`should_run_query`)
* `platypus-databridge/development/incremental.py` — incremental sync service
* `platypus-databridge/parquet_file_mover.py` — parquet mover decision policy
* `bankyleaks/utils/utils.py`, `bankyleaks/marketshare/sod_ms.py` — FDIC helpers
* `isoreach/branch_polys.py` — isochrone overlap and request scheduling
* `platypus/utils/hyper_file_utils.py` — hyper extract type inference

Database reads, HTTP fetches and the wall clock are passed in as explicit
parameters; machine integers are modelled as `Int`/`Nat` (none of the
arithmetic involved can overflow 64 bits on the inputs considered), and the
parquet mover's floating-point size ratio is modelled as exact rational
division (on the byte sizes appearing in the claims the float comparison
agrees with the rational one, both sides being exactly representable
decimals).
-/

namespace Databridge

/-- Python's `str.lower()` on the ASCII statuses stored in `query_log`. -/
def lower (s : String) : String :=
  String.mk (s.data.map Char.toLower)

/-- `status and status.lower() == "failed"` from `should_run_query`
(`main.py:138`): a `None` or empty status is falsy in Python and does not
force a run. -/
def statusFailed (status : Option String) : Bool :=
  match status with
  | none => false
  | some s => lower s == "failed"

/-- The frequency window of `should_run_query` (`main.py:141-146`), in
seconds: the dictionary lookup with default `timedelta(weeks=1)`. -/
def windowSecs (frequency : String) : Int :=
  if frequency == "now" then 1
  else if frequency == "daily" then 12 * 3600
  else if frequency == "weekly" then 7 * 24 * 3600
  else if frequency == "quarterly" then 120 * 24 * 3600
  else 7 * 24 * 3600

/-- `LastRunInfo = Tuple[dt, str, str]` as fetched by `get_last_run_info`
(`main.py:114-126`): the most recent `query_log` row's
`(last_run, frequency, status)`, with `last_run` and `status` nullable.
Timestamps are integer seconds. -/
abbrev LastRunInfo := Option Int × String × Option String

/-- `should_run_query` (`main.py:129-148`).  The database fetch
`get_last_run_info(query_name)` is passed in as `info`; `now` is the value
of `dt.now()` in seconds. -/
def should_run_query (force_run : Bool) (info : Option LastRunInfo)
    (frequency : String) (now : Int) : Bool :=
  if force_run then true
  else
    match info with
    | none => true
    | some (last_run, _, status) =>
      match last_run with
      | none => true
      | some t =>
        if statusFailed status then true
        else decide (now - t ≥ windowSecs frequency)

end Databridge

namespace Incremental

/-- A row of the demo sync tables (`incremental.py:437-443`): primary-key
column `id`, payload `name`, watermark column `last_modified_ts` (epoch
milliseconds, a BIGINT, hence `Int`). -/
structure Row where
  id : Int
  name : String
  last_modified_ts : Int
deriving DecidableEq, Repr

/-- A local DuckDB table / a staged Arrow batch, as a row list. -/
abbrev Table := List Row

/-- The `sync_metadata` table (`incremental.py:146-154`): one
`(table_name, last_sync_ts)` row per table name. `last_sync_ts` values are
written from `int(time.time() * 1000)`, which is non-negative, hence `Nat`. -/
abbrev SyncMeta := List (String × Nat)

/-- `SyncMetadataRepository.get_last_sync_ts` (`incremental.py:160-165`):
`int(row[0]) if row else 0`. -/
def get_last_sync_ts (meta : SyncMeta) (table_name : String) : Nat :=
  match meta.find? (fun p => p.1 == table_name) with
  | some p => p.2
  | none => 0

/-- `SyncMetadataRepository.set_last_sync_ts` (`incremental.py:167-171`):
`INSERT OR REPLACE INTO sync_metadata VALUES (?, ?)`. -/
def set_last_sync_ts (meta : SyncMeta) (table_name : String) (ts_ms : Nat) : SyncMeta :=
  (table_name, ts_ms) :: meta.filter (fun p => !(p.1 == table_name))

/-- `IncrementalSyncService._make_incremental_sql` (`incremental.py:187-192`). -/
def make_incremental_sql (dremio_path last_modified_column : String)
    (last_sync_ms : Nat) : String :=
  "SELECT * FROM " ++ dremio_path ++ " WHERE " ++ last_modified_column ++
    " > " ++ toString last_sync_ms

/-- `FakeDremioClient.toArrow` (`incremental.py:392-402`): the fake remote
source filters its rows by `last_modified_ts > cutoff`, where `cutoff` is
the watermark parsed back out of the incremental SQL. -/
def fakeToArrow (source : Table) (cutoff : Int) : Table :=
  source.filter (fun r => cutoff < r.last_modified_ts)

/-- The DuckDB statement built by `IncrementalSyncService._merge_sql`
(`incremental.py:203-212`): `MERGE INTO target USING staging ON
target.pk = source.pk WHEN MATCHED THEN UPDATE SET <cols> WHEN NOT MATCHED
THEN INSERT *`.  Matched target rows take the source row's values for every
column; unmatched source rows are appended. -/
def mergeRows (target source : Table) : Table :=
  target.map (fun t => ((source.find? (fun s => s.id == t.id)).getD t)) ++
    source.filter (fun s => !(target.any (fun t => t.id == s.id)))

/-- The remote fetch of `sync_one` as seen after `_fetch_incremental_arrow_reader`
(`incremental.py:239-248`): the reader's schema column names and the
materialized rows. -/
structure FetchResult where
  columns : List String
  rows : Table

/-- `IncrementalSyncService.sync_one` (`incremental.py:219-285`) with the
remote fetch passed in as `fr` and the start clock `int(time.time() * 1000)`
as `now`.  Returns the new local table, the new `sync_metadata`, and the
merged row count; `.error` models the `ValueError` raised when the declared
primary-key column is missing from the incoming data. -/
def sync_one_generic (fr : FetchResult) (primary_key local_name : String)
    (table : Table) (meta : SyncMeta) (now : Nat) :
    Except String (Table × SyncMeta × Nat) :=
  if fr.columns.isEmpty then
    .ok (table, set_last_sync_ts meta local_name now, 0)
  else if fr.rows.isEmpty then
    .ok (table, set_last_sync_ts meta local_name now, 0)
  else if !(fr.columns.contains primary_key) then
    .error ("Primary key column " ++ primary_key ++
      " not present in incoming data for " ++ local_name)
  else
    .ok (mergeRows table fr.rows, set_last_sync_ts meta local_name now,
      fr.rows.length)

/-- The schema of the demo frames (`incremental.py:437-458`); never empty,
and it contains the primary key `id`. -/
def demoColumns : List String := ["id", "name", "last_modified_ts"]

/-- `sync_one` running against `FakeDremioClient source` for the demo table:
the fetch is `fakeToArrow source` at the current watermark. -/
def sync_one_fake (source : Table) (local_name : String) (table : Table)
    (meta : SyncMeta) (now : Nat) : Table × SyncMeta × Nat :=
  let last := get_last_sync_ts meta local_name
  match sync_one_generic ⟨demoColumns, fakeToArrow source (last : Int)⟩
      "id" local_name table meta now with
  | .ok out => out
  | .error _ => (table, meta, 0)

/-- The first demo batch (`incremental.py:437-443`). -/
def demo_df : Table :=
  [⟨1, "alpha", 1000⟩, ⟨2, "bravo", 2000⟩, ⟨3, "charlie", 3000⟩]

/-- The second demo batch (`incremental.py:452-458`): ids 2 and 3 updated,
id 4 new. -/
def demo_df2 : Table :=
  [⟨2, "bravo2", 4000⟩, ⟨3, "charlie2", 5000⟩, ⟨4, "delta", 6000⟩]

/-- `demo_fake_run` (`incremental.py:431-466`): three `sync_one` calls —
seed batch, unchanged source, updated source — with start clocks
`t0 ≤ t1 ≤ t2` taken from `int(time.time() * 1000)`.  Returns the three
merged-row counts and the final local table. -/
def demo_fake_run (t0 t1 t2 : Nat) : (Nat × Nat × Nat) × Table :=
  let s1 := sync_one_fake demo_df "demo_table" [] [] t0
  let s2 := sync_one_fake demo_df "demo_table" s1.1 s1.2.1 t1
  let s3 := sync_one_fake demo_df2 "demo_table" s2.1 s2.2.1 t2
  ((s1.2.2, s2.2.2, s3.2.2), s3.1)

end Incremental

namespace ParquetMover

/-- Per-file overrides of `ParquetFileManager`
(`parquet_file_mover.py:20-24,73-74`); a key absent from the override dict
is falsy, so every field defaults to `false`. -/
structure MoveOverrides where
  force_review : Bool := false
  force_core : Bool := false
  ignore_min_size : Bool := false
  ignore_ratio : Bool := false

/-- The two destinations a new parquet file can be routed to. -/
inductive Dest
  | review
  | core
deriving DecidableEq, Repr

/-- `ParquetFileManager._decide_destination` (`parquet_file_mover.py:76-93`).
Byte sizes are `Nat`; `core_size` is `none` when no same-named core file
exists; the float ratio `new_size / core_size` and `size_threshold` are
modelled as exact rationals. -/
def decide_destination (ov : MoveOverrides) (size_threshold : ℚ)
    (min_size_bytes new_size : Nat) (core_size : Option Nat) : Dest :=
  if ov.force_review = true then .review
  else if ov.force_core = true then .core
  else if ov.ignore_min_size = false ∧ new_size < min_size_bytes then .review
  else
    match core_size with
    | some c =>
      if 0 < c then
        if ov.ignore_ratio = false ∧ (new_size : ℚ) / (c : ℚ) < size_threshold then
          .review
        else .core
      else .core
    | none => .core

/-- Claim C4: the mover's decision policy applies in order —
`force_review`, then `force_core`, then (unless `ignore_min_size`) the
small-file rule, then (for an existing core file of positive size, unless
`ignore_ratio`) review iff `new_size / core_size < size_threshold`
strictly, else core.  With threshold 0.99 and a 1000-byte core file a
990-byte file goes to core, a 989-byte file to review, and a 5-byte file
with `min_size_bytes = 10` goes to review regardless of any core file. -/
theorem decide_destination_correct :
    (∀ ov thr minb ns cs, ov.force_review = true →
      decide_destination ov thr minb ns cs = .review) ∧
    (∀ ov thr minb ns cs, ov.force_review = false → ov.force_core = true →
      decide_destination ov thr minb ns cs = .core) ∧
    (∀ ov thr minb ns cs, ov.force_review = false → ov.force_core = false →
      ov.ignore_min_size = false → ns < minb →
      decide_destination ov thr minb ns cs = .review) ∧
    (∀ ov thr minb ns c, ov.force_review = false → ov.force_core = false →
      ¬(ov.ignore_min_size = false ∧ ns < minb) → 0 < c →
      ov.ignore_ratio = false →
      (decide_destination ov thr minb ns (some c) = .review ↔
        (ns : ℚ) / (c : ℚ) < thr)) ∧
    (∀ ov thr minb ns, ov.force_review = false → ov.force_core = false →
      ¬(ov.ignore_min_size = false ∧ ns < minb) →
      decide_destination ov thr minb ns (some 0) = .core) ∧
    (∀ ov thr minb ns, ov.force_review = false → ov.force_core = false →
      ¬(ov.ignore_min_size = false ∧ ns < minb) →
      decide_destination ov thr minb ns none = .core) ∧
    decide_destination {} (99/100) 10 990 (some 1000) = .core ∧
    decide_destination {} (99/100) 10 989 (some 1000) = .review ∧
    (∀ cs, decide_destination {} (99/100) 10 5 cs = .review) := by
  refine ⟨?_, ?_, ?_, ?_, ?_, ?_, ?_, ?_, ?_⟩
  · intro ov thr minb ns cs h
    simp [decide_destination, h]
  · intro ov thr minb ns cs h1 h2
    simp [decide_destination, h1, h2]
  · intro ov thr minb ns cs h1 h2 h3 h4
    simp [decide_destination, h1, h2, h3, h4]
  · intro ov thr minb ns c h1 h2 h3 h4 h5
    simp only [decide_destination, h1, h2, h5, if_neg, if_pos, h3, h4]
    simp only [Bool.false_eq_true, if_false, if_neg h3, if_pos h4, true_and]
    by_cases hr : (ns : ℚ) / (c : ℚ) < thr <;> simp [hr]
  · intro ov thr minb ns h1 h2 h3
    simp [decide_destination, h1, h2, h3]
  · intro ov thr minb ns h1 h2 h3
    simp [decide_destination, h1, h2, h3]
  · norm_num [decide_destination]
  · norm_num [decide_destination]
  · intro cs
    cases cs <;> norm_num [decide_destination]

/-- Witness for `decide_destination_correct`: a forced-review override wins
at a concrete input, and the ratio rule at 990/1000 versus 0.99 gives core. -/
theorem decide_destination_correct_witness :
    decide_destination { force_review := true } (99/100) 10 990 (some 1000) =
      Dest.review ∧
    (decide_destination {} (99/100) 10 990 (some 1000) = Dest.review ↔
      (990 : ℚ) / (1000 : ℚ) < 99/100) := by
  obtain ⟨h1, -, -, h4, -, -, -, -, -⟩ := decide_destination_correct
  exact ⟨h1 { force_review := true } (99/100) 10 990 (some 1000) rfl,
    h4 {} (99/100) 10 990 1000 rfl rfl (by norm_num) (by norm_num) rfl⟩

end ParquetMover

namespace Bankyleaks

/-- The `meta` block of an FDIC API response, with its optional `total`
(`utils.py:19`, `data['meta']['total']`). -/
structure MetaBlock where
  total : Option Int

/-- A decoded FDIC API response: only the presence/absence of `meta` and
`meta.total` matters to the record-count helpers. -/
structure ApiResponse where
  meta : Option MetaBlock

/-- The `params` dict handed to a record-count helper; only the `limit` and
`offset` keys are read or written by them (`none` models an absent key). -/
structure QueryParams where
  limit : Option Int := none
  offset : Option Int := none

/-- The shared tail of the four record-count helpers (`utils.py:19-23` etc.):
`meta.total` if the path is present, else a printed warning and 0. -/
def read_total (resp : ApiResponse) : Int :=
  match resp.meta with
  | some m =>
    match m.total with
    | some t => t
    | none => 0
  | none => 0

/-- `get_institutions_record_count` (`utils.py:4-23`): sets
`params['limit'] = 1; params['offset'] = 0`, issues the query, reads
`meta.total`.  The API call is the function argument. -/
def get_institutions_record_count (get_institutions : QueryParams → ApiResponse)
    (params : QueryParams) : Int :=
  read_total (get_institutions { params with limit := some 1, offset := some 0 })

/-- `get_locations_record_count` (`utils.py:25-44`): same shape as the
institutions helper. -/
def get_locations_record_count (get_locations : QueryParams → ApiResponse)
    (params : QueryParams) : Int :=
  read_total (get_locations { params with limit := some 1, offset := some 0 })

/-- `get_demographics_record_count` (`utils.py:46-63`): issues the query
with the caller's `params` unchanged — it does NOT set `limit`/`offset`. -/
def get_demographics_record_count (get_demographics : QueryParams → ApiResponse)
    (params : QueryParams) : Int :=
  read_total (get_demographics params)

/-- `get_sod_record_count` (`utils.py:65-82`): issues the query with the
caller's `params` unchanged — it does NOT set `limit`/`offset`. -/
def get_sod_record_count (get_sod : QueryParams → ApiResponse)
    (params : QueryParams) : Int :=
  read_total (get_sod params)

/-- A fake API echoing back the `limit` it was queried with as `meta.total`. -/
def spy_limit : QueryParams → ApiResponse := fun q => ⟨some ⟨q.limit⟩⟩

/-- A fake API echoing back the `offset` it was queried with as `meta.total`. -/
def spy_offset : QueryParams → ApiResponse := fun q => ⟨some ⟨q.offset⟩⟩

/-- A fake API whose responses carry no `meta` block. -/
def no_meta : QueryParams → ApiResponse := fun _ => ⟨none⟩

/-- A fake API whose responses carry `meta` but no `meta.total`. -/
def no_total : QueryParams → ApiResponse := fun _ => ⟨some ⟨none⟩⟩

/-- `load_fields` (`utils.py:84-99`): filters the caller's wish-list down to
fields present in the YAML catalog (`properties.data.properties`) and joins
with commas; no error on zero matches. -/
def load_fields (catalog selected_fields : List String) : String :=
  ",".intercalate (selected_fields.filter (fun f => catalog.contains f))

/-- `SOD._load_sod_fields` (`sod_ms.py:34-48`): same filter-and-join, but
raises `ValueError("No valid fields found in YAML file")` when no requested
field is in the catalog. -/
def load_sod_fields (available_fields selected_fields : List String) :
    Except String String :=
  let valid_fields := selected_fields.filter (fun f => available_fields.contains f)
  if valid_fields.isEmpty then .error "No valid fields found in YAML file"
  else .ok (",".intercalate valid_fields)

end Bankyleaks

namespace Bankyleaks

/-- Claim C5: the FDIC field-catalog filter (`_load_sod_fields`) returns
the comma-joined subset of the requested field list present in the YAML
catalog, in request order with unknown fields silently dropped, and raises
an error (rather than returning an empty result) when none of the
requested fields match. -/
theorem load_sod_fields_correct :
    (∀ catalog selected, load_fields catalog selected =
      ",".intercalate (selected.filter (fun f => catalog.contains f))) ∧
    (∀ catalog selected, (∃ f ∈ selected, f ∈ catalog) →
      load_sod_fields catalog selected = .ok (load_fields catalog selected)) ∧
    (∀ catalog selected, (∀ f ∈ selected, f ∉ catalog) →
      load_sod_fields catalog selected =
        .error "No valid fields found in YAML file") ∧
    load_sod_fields ["CERT"] ["CERT", "NOT_A_REAL_FIELD"] = .ok "CERT" := by
  refine ⟨fun _ _ => rfl, ?_, ?_, ?_⟩
  · intro catalog selected h
    obtain ⟨f, hf, hcat⟩ := h
    have hcont : catalog.contains f = true := by simpa using hcat
    have hmem : f ∈ selected.filter (fun f => catalog.contains f) :=
      List.mem_filter.mpr ⟨hf, hcont⟩
    have hE : (selected.filter (fun f => catalog.contains f)).isEmpty = false := by
      cases hfil : selected.filter (fun f => catalog.contains f) with
      | nil => rw [hfil] at hmem; cases hmem
      | cons a l => rfl
    simp only [load_sod_fields, load_fields, hE, Bool.false_eq_true, if_false]
  · intro catalog selected h
    have hfil : selected.filter (fun f => catalog.contains f) = [] := by
      rw [List.filter_eq_nil_iff]
      intro f hf
      simpa using h f hf
    simp [load_sod_fields, hfil]
    exact h
  · rfl

/-- Witness for `load_sod_fields_correct`: a catalog containing only `CERT`
matches the request `["CERT", "NOT_A_REAL_FIELD"]`, and a request of only
unknown fields errors. -/
theorem load_sod_fields_correct_witness :
    load_sod_fields ["CERT"] ["CERT", "NOT_A_REAL_FIELD"] =
      .ok (load_fields ["CERT"] ["CERT", "NOT_A_REAL_FIELD"]) ∧
    load_sod_fields ["CERT"] ["NOT_A_REAL_FIELD"] =
      .error "No valid fields found in YAML file" := by
  obtain ⟨-, h2, h3, -⟩ := load_sod_fields_correct
  refine ⟨h2 ["CERT"] ["CERT", "NOT_A_REAL_FIELD"] ⟨"CERT", by simp, by simp⟩,
    h3 ["CERT"] ["NOT_A_REAL_FIELD"] ?_⟩
  intro f hf
  simp at hf
  simp [hf]

/-- Counterexample to claim C6: a backend that echoes the `limit` it
receives shows that the institutions helper queries with `limit = 1` while
the demographics and SOD helpers pass the caller's `limit = 7` through
unchanged — so not all four helpers set `limit=1, offset=0`. -/
theorem record_count_setters_countereg :
    get_institutions_record_count spy_limit { limit := some 7, offset := some 5 } = 1 ∧
    get_locations_record_count spy_limit { limit := some 7, offset := some 5 } = 1 ∧
    get_demographics_record_count spy_limit { limit := some 7, offset := some 5 } = 7 ∧
    get_sod_record_count spy_limit { limit := some 7, offset := some 5 } = 7 :=
  ⟨rfl, rfl, rfl, rfl⟩

/-- Claim C6 as amended: the institutions and locations helpers set
`limit = 1` and `offset = 0` before issuing their queries, while the
demographics and SOD helpers issue the caller's parameters unchanged; all
four return `meta.total` and return 0 (with only a printed warning) when
`meta` or `meta.total` is absent. -/
theorem record_count_helpers_correct :
    (∀ p, get_institutions_record_count spy_limit p = 1) ∧
    (∀ p, get_institutions_record_count spy_offset p = 0) ∧
    (∀ p, get_locations_record_count spy_limit p = 1) ∧
    (∀ p, get_locations_record_count spy_offset p = 0) ∧
    (∀ p, get_demographics_record_count spy_limit p = p.limit.getD 0) ∧
    (∀ p, get_demographics_record_count spy_offset p = p.offset.getD 0) ∧
    (∀ p, get_sod_record_count spy_limit p = p.limit.getD 0) ∧
    (∀ p, get_sod_record_count spy_offset p = p.offset.getD 0) ∧
    (∀ p, get_institutions_record_count no_meta p = 0) ∧
    (∀ p, get_locations_record_count no_meta p = 0) ∧
    (∀ p, get_demographics_record_count no_meta p = 0) ∧
    (∀ p, get_sod_record_count no_meta p = 0) ∧
    (∀ p, get_institutions_record_count no_total p = 0) ∧
    (∀ p, get_locations_record_count no_total p = 0) ∧
    (∀ p, get_demographics_record_count no_total p = 0) ∧
    (∀ p, get_sod_record_count no_total p = 0) := by
  refine ⟨fun p => rfl, fun p => rfl, fun p => rfl, fun p => rfl,
    ?_, ?_, ?_, ?_,
    fun p => rfl, fun p => rfl, fun p => rfl, fun p => rfl,
    fun p => rfl, fun p => rfl, fun p => rfl, fun p => rfl⟩
  · rintro ⟨l, o⟩; cases l <;> rfl
  · rintro ⟨l, o⟩; cases o <;> rfl
  · rintro ⟨l, o⟩; cases l <;> rfl
  · rintro ⟨l, o⟩; cases o <;> rfl

end Bankyleaks

namespace Isoreach

/-- An isochrone polygon, modelled as a finite set of unit grid cells:
`area` is the cell count and polygon intersection is set intersection.
This carries exactly the structure `compute_isochrone_overlaps` uses of
shapely geometry — non-negative areas, commutative intersection,
`area (p ∩ q) ≤ area p`, and `p ∩ p = p`. -/
abbrev Poly := Finset (ℤ × ℤ)

/-- Polygon area as a rational (`poly.area` in shapely). -/
def area (p : Poly) : ℚ := p.card

/-- The pairwise overlap percentage of `compute_isochrone_overlaps`
(`branch_polys.py:251-259`): `area(intersection) / (area_i + area_j) * 100`
when the denominator is positive, else `0.0`. -/
def overlap_pct (p q : Poly) : ℚ :=
  if 0 < area p + area q then ((p ∩ q).card : ℚ) / (area p + area q) * 100
  else 0

/-- `compute_isochrone_overlaps` (`branch_polys.py:243-260`): the all-pairs
table over the isochrone rows, self-pairs included, keyed by branch code. -/
def compute_isochrone_overlaps (isos : List (String × Poly)) :
    List (String × String × ℚ) :=
  isos.flatMap (fun ri => isos.map (fun rj => (ri.1, rj.1, overlap_pct ri.2 rj.2)))

/-- The per-branch request schedule of `generate_isochrones`
(`branch_polys.py:132-146`): `intervals_sec = [m * 60 for m in
time_intervals_min]` and then `for time_min, time_sec in
product(cfg.time_intervals_min, intervals_sec)` — the Cartesian product of
the minute list with the second list, one routing request per element,
requesting `time_sec` seconds and tagging the resulting row `time_min`
minutes. -/
def requestSchedule (time_intervals_min : List Nat) : List (Nat × Nat) :=
  let intervals_sec := time_intervals_min.map (fun m => m * 60)
  time_intervals_min.flatMap
    (fun time_min => intervals_sec.map (fun time_sec => (time_min, time_sec)))

end Isoreach

namespace Isoreach

/-- Claim C7: the isochrone overlap percentage is symmetric, lies in
`[0, 100]`, is 0 when the denominator `area p + area q` is zero, and the
self-overlap of a polygon with positive area is 50 (not 100) under the
`area(inter) / (area i + area j) * 100` formula; every entry of the
all-pairs table is such a percentage. -/
theorem overlap_pct_correct :
    (∀ p q : Poly, overlap_pct p q = overlap_pct q p) ∧
    (∀ p q : Poly, 0 ≤ overlap_pct p q ∧ overlap_pct p q ≤ 100) ∧
    (∀ p q : Poly, area p + area q = 0 → overlap_pct p q = 0) ∧
    (∀ p : Poly, 0 < area p → overlap_pct p p = 50) ∧
    (∀ isos x, x ∈ compute_isochrone_overlaps isos →
      ∃ ri ∈ isos, ∃ rj ∈ isos, x = (ri.1, rj.1, overlap_pct ri.2 rj.2)) := by
  refine ⟨?_, ?_, ?_, ?_, ?_⟩
  · intro p q
    simp only [overlap_pct]
    rw [Finset.inter_comm p q, add_comm (area p) (area q)]
  · intro p q
    by_cases h : 0 < area p + area q
    · simp only [overlap_pct, if_pos h]
      have hq : (0 : ℚ) ≤ area q := by simp [area]
      have hle : ((p ∩ q).card : ℚ) ≤ area p + area q := by
        have h1 : (p ∩ q).card ≤ p.card :=
          Finset.card_le_card Finset.inter_subset_left
        have h2 : ((p ∩ q).card : ℚ) ≤ (p.card : ℚ) := by exact_mod_cast h1
        calc ((p ∩ q).card : ℚ) ≤ (p.card : ℚ) := h2
          _ = area p := rfl
          _ ≤ area p + area q := le_add_of_nonneg_right hq
      constructor
      · apply mul_nonneg (div_nonneg (by positivity) (le_of_lt h)) (by norm_num)
      · have h1 : ((p ∩ q).card : ℚ) / (area p + area q) ≤ 1 := (div_le_one h).mpr hle
        have h2 := mul_le_mul_of_nonneg_right h1 (by norm_num : (0 : ℚ) ≤ 100)
        simpa using h2
    · simp only [overlap_pct, if_neg h]
      norm_num
  · intro p q h
    simp [overlap_pct, h]
  · intro p h
    have hc : (0 : ℚ) < (p.card : ℚ) := by simpa [area] using h
    simp only [overlap_pct, Finset.inter_self, area]
    rw [if_pos (show (0 : ℚ) < (p.card : ℚ) + (p.card : ℚ) by linarith)]
    field_simp
    ring
  · intro isos x hx
    simp only [compute_isochrone_overlaps, List.mem_flatMap, List.mem_map] at hx
    obtain ⟨ri, hri, rj, hrj, rfl⟩ := hx
    exact ⟨ri, hri, rj, hrj, rfl⟩

/-- Witness for `overlap_pct_correct`: a one-cell polygon self-overlaps at
50 percent, and two empty polygons overlap at 0. -/
theorem overlap_pct_correct_witness :
    overlap_pct {((0 : ℤ), (0 : ℤ))} {((0 : ℤ), (0 : ℤ))} = 50 ∧
    overlap_pct (∅ : Poly) (∅ : Poly) = 0 := by
  obtain ⟨-, -, h3, h4, -⟩ := overlap_pct_correct
  refine ⟨h4 {((0 : ℤ), (0 : ℤ))} ?_, h3 ∅ ∅ ?_⟩
  · norm_num [area]
  · simp [area]

/-- Claim C8 (the claim matches the code's own intent, stated in the loop
comment, but not its behavior): with two requested intervals `[10, 20]`
minutes, `generate_isochrones` iterates `product((10, 20), (600, 1200))`
and issues 4 routing requests per branch — not 2, one per interval — and
the element `(10, 1200)` requests 1200 seconds while tagging its row 10
minutes.  For a single requested interval the product degenerates and the
count is 1, masking the defect in the default configuration. -/
theorem isochrone_request_schedule_eval :
    requestSchedule [10, 20] = [(10, 600), (10, 1200), (20, 600), (20, 1200)] ∧
    (requestSchedule [10, 20]).length = 4 ∧
    ([10, 20] : List Nat).length = 2 ∧
    (10, 1200) ∈ requestSchedule [10, 20] ∧
    (∀ l : List Nat, (requestSchedule l).length = l.length * l.length) := by
  have key : ∀ (xs secs : List Nat),
      (xs.flatMap (fun m => secs.map (fun s => (m, s)))).length =
        xs.length * secs.length := by
    intro xs secs
    induction xs with
    | nil => simp
    | cons a t ih =>
      rw [List.flatMap_cons, List.length_append, List.length_map, ih,
        List.length_cons, Nat.succ_mul, Nat.add_comm]
  refine ⟨rfl, rfl, rfl, by decide, ?_⟩
  intro l
  show (l.flatMap
      (fun time_min => (l.map (fun m => m * 60)).map
        (fun time_sec => (time_min, time_sec)))).length = l.length * l.length
  rw [key l (l.map (fun m => m * 60)), List.length_map]

end Isoreach

namespace HyperFile

/-- The Tableau Hyper SQL column types chosen by
`HyperFileCreator.pandas_to_smallest_sqltype`. -/
inductive SqlTy
  | small_int
  | int
  | big_int
  | double
  | bool
  | char (n : Nat)
  | text
deriving DecidableEq, Repr

/-- The integer branch of `pandas_to_smallest_sqltype`
(`hyper_file_utils.py:46-60`), applied to the column's observed minimum and
maximum (`df[col].min()`, `df[col].max()`).  Note the negative-minimum
branch compares against the 16-bit literals `-32768`/`32767` in the
source. -/
def pandas_int_sqltype (min_value max_value : Int) : SqlTy :=
  if 0 ≤ min_value then
    if max_value ≤ 255 then .small_int
    else if max_value ≤ 65535 then .int
    else .big_int
  else
    if -32768 ≤ min_value ∧ max_value ≤ 32767 then .int
    else .big_int

end HyperFile

namespace HyperFile

/-- Counterexample to claim C9: the column bounds `min = -100000`,
`max = 0` lie within the 32-bit literals `-2147483648`/`2147483647` the
claim states, yet the source assigns big-int, because its negative branch
actually checks the 16-bit bounds `-32768`/`32767`. -/
theorem pandas_int_sqltype_countereg :
    pandas_int_sqltype (-100000) 0 = SqlTy.big_int ∧
    SqlTy.big_int ≠ SqlTy.int ∧
    (-2147483648 : Int) ≤ -100000 ∧ (0 : Int) ≤ 2147483647 ∧
    (-100000 : Int) < 0 := by
  refine ⟨rfl, by decide, by decide, by decide, by decide⟩

/-- Claim C9 as amended: for an integer column containing a negative value
(observed minimum `< 0`), int is assigned exactly when the observed minimum
is `≥ -32768` and the observed maximum is `≤ 32767` (the 16-bit literals in
the source, not 32-bit bounds), big-int otherwise; for a non-negative
minimum, small-int is chosen when the maximum is `≤ 255`, int when
`≤ 65535`, big-int otherwise. -/
theorem pandas_int_sqltype_correct :
    (∀ minV maxV : Int, minV < 0 →
      (pandas_int_sqltype minV maxV = .int ↔ (-32768 ≤ minV ∧ maxV ≤ 32767))) ∧
    (∀ minV maxV : Int, minV < 0 → ¬(-32768 ≤ minV ∧ maxV ≤ 32767) →
      pandas_int_sqltype minV maxV = .big_int) ∧
    (∀ minV maxV : Int, 0 ≤ minV → maxV ≤ 255 →
      pandas_int_sqltype minV maxV = .small_int) ∧
    (∀ minV maxV : Int, 0 ≤ minV → 255 < maxV → maxV ≤ 65535 →
      pandas_int_sqltype minV maxV = .int) ∧
    (∀ minV maxV : Int, 0 ≤ minV → 65535 < maxV →
      pandas_int_sqltype minV maxV = .big_int) := by
  refine ⟨?_, ?_, ?_, ?_, ?_⟩
  · intro minV maxV h
    simp only [pandas_int_sqltype, if_neg (not_le.mpr h)]
    by_cases hc : -32768 ≤ minV ∧ maxV ≤ 32767 <;> simp [hc]
  · intro minV maxV h hc
    simp [pandas_int_sqltype, not_le.mpr h, hc]
  · intro minV maxV h h1
    simp [pandas_int_sqltype, h, h1]
  · intro minV maxV h h1 h2
    simp [pandas_int_sqltype, h, not_le.mpr h1, h2]
  · intro minV maxV h h1
    simp [pandas_int_sqltype, h, not_le.mpr h1, not_le.mpr (by linarith : (255 : Int) < maxV)]

/-- Witness for `pandas_int_sqltype_correct` at concrete column bounds:
`[-100, 200] ↦ int`, `[-100000, 0] ↦ big-int`, `[0, 255] ↦ small-int`,
`[0, 65535] ↦ int`, `[0, 65536] ↦ big-int`. -/
theorem pandas_int_sqltype_correct_witness :
    pandas_int_sqltype (-100) 200 = SqlTy.int ∧
    pandas_int_sqltype (-100000) 0 = SqlTy.big_int ∧
    pandas_int_sqltype 0 255 = SqlTy.small_int ∧
    pandas_int_sqltype 0 65535 = SqlTy.int ∧
    pandas_int_sqltype 0 65536 = SqlTy.big_int := by
  obtain ⟨h1, h2, h3, h4, h5⟩ := pandas_int_sqltype_correct
  exact ⟨(h1 (-100) 200 (by norm_num)).mpr (by norm_num),
    h2 (-100000) 0 (by norm_num) (by norm_num),
    h3 0 255 le_rfl (by norm_num),
    h4 0 65535 le_rfl (by norm_num) le_rfl,
    h5 0 65536 le_rfl (by norm_num)⟩

end HyperFile

namespace Incremental

/-- Claim C2 (the claim is right; the demo harness in the code is not):
running `demo_fake_run` with wall-clock epoch-millisecond start times — as
the code does via `int(time.time() * 1000)` — the first sync merges the
3 seeded rows, the second merges 0, and the third sync, despite the source
having 2 updated ids and 1 new id, also merges 0: its watermark is the
second sync's epoch-ms start time, which exceeds the fake rows' toy
timestamps 4000–6000.  The final local table is the original 3 rows
unchanged and id 4 is never inserted, contradicting the claimed
"2 updated in place, 1 inserted". -/
theorem demo_fake_run_third_sync_merges_nothing :
    demo_fake_run 1760227200000 1760227201000 1760227202000 =
      ((3, 0, 0), demo_df) ∧
    (demo_fake_run 1760227200000 1760227201000 1760227202000).2.all
      (fun r => !(r.id == 4)) = true ∧
    demo_df = [⟨1, "alpha", 1000⟩, ⟨2, "bravo", 2000⟩, ⟨3, "charlie", 3000⟩] := by
  decide

/-- Counterexample to claim C3: a sync attempt whose incoming data lacks
the declared primary-key column raises the `ValueError` of
`incremental.py:264-267` before the watermark write at line 279, so it
does not overwrite `sync_metadata.last_sync_ts` — the attempt below
returns the error, and the stored watermark stays 3 rather than becoming
the sync's start time 99.  The claim's "every sync attempt unconditionally
overwrites" is therefore false. -/
theorem sync_one_missing_pk_no_overwrite :
    sync_one_generic ⟨["name", "last_modified_ts"], [⟨1, "a", 10⟩]⟩ "id"
      "demo_table" [] [("demo_table", 3)] 99 =
      .error "Primary key column id not present in incoming data for demo_table" ∧
    get_last_sync_ts [("demo_table", 3)] "demo_table" = 3 ∧
    (3 : Nat) ≠ 99 := by
  refine ⟨rfl, rfl, by decide⟩

/-- Claim C3 as amended: every sync attempt that completes without raising
overwrites `sync_metadata.last_sync_ts` for the synced table name with the
sync's start timestamp `now`; the empty-schema and zero-row fetches always
complete, with 0 merged rows (and still overwrite the watermark); reading
the watermark back after the overwrite yields `now`; and the one
non-completing path — incoming data missing the declared primary-key
column — raises instead of overwriting. -/
theorem sync_one_always_advances_watermark :
    (∀ (fr : FetchResult) pk name table meta now, fr.columns = [] →
      sync_one_generic fr pk name table meta now =
        .ok (table, set_last_sync_ts meta name now, 0)) ∧
    (∀ (fr : FetchResult) pk name table meta now, fr.rows = [] →
      sync_one_generic fr pk name table meta now =
        .ok (table, set_last_sync_ts meta name now, 0)) ∧
    (∀ (fr : FetchResult) pk name table meta now out,
      sync_one_generic fr pk name table meta now = .ok out →
      out.2.1 = set_last_sync_ts meta name now) ∧
    (∀ (meta : SyncMeta) name now,
      get_last_sync_ts (set_last_sync_ts meta name now) name = now) ∧
    (∀ (fr : FetchResult) pk name table meta now,
      fr.columns.isEmpty = false → fr.rows.isEmpty = false →
      fr.columns.contains pk = false →
      sync_one_generic fr pk name table meta now =
        .error ("Primary key column " ++ pk ++
          " not present in incoming data for " ++ name)) := by
  refine ⟨?_, ?_, ?_, ?_, ?_⟩
  · intro fr pk name table meta now h
    simp [sync_one_generic, h]
  · intro fr pk name table meta now h
    by_cases hc : fr.columns.isEmpty = true <;> simp [sync_one_generic, h, hc]
  · intro fr pk name table meta now out h
    simp only [sync_one_generic] at h
    split at h
    · injection h with h2; subst h2; rfl
    · split at h
      · injection h with h2; subst h2; rfl
      · split at h
        · exact absurd h (by simp)
        · injection h with h2; subst h2; rfl
  · intro meta name now
    simp [get_last_sync_ts, set_last_sync_ts, List.find?]
  · intro fr pk name table meta now h1 h2 h3
    simp [sync_one_generic, h1, h2, h3]
    simpa using h3

/-- Witness for `sync_one_always_advances_watermark`: an empty-schema fetch
at start time 5 completes with 0 rows and stores watermark 5, while a
fetch whose columns lack the primary key errors out. -/
theorem sync_one_always_advances_watermark_witness :
    sync_one_generic ⟨[], []⟩ "id" "demo_table" [] [] 5 =
      .ok ([], set_last_sync_ts [] "demo_table" 5, 0) ∧
    get_last_sync_ts (set_last_sync_ts [] "demo_table" 5) "demo_table" = 5 ∧
    sync_one_generic ⟨["name"], [⟨1, "a", 10⟩]⟩ "id" "demo_table" [] [] 5 =
      .error "Primary key column id not present in incoming data for demo_table" := by
  obtain ⟨h1, -, -, h4, h5⟩ := sync_one_always_advances_watermark
  exact ⟨h1 ⟨[], []⟩ "id" "demo_table" [] [] 5 rfl, h4 [] "demo_table" 5,
    h5 ⟨["name"], [⟨1, "a", 10⟩]⟩ "id" "demo_table" [] [] 5 rfl rfl (by decide)⟩

/-- Claim C10: a table name with no `sync_metadata` row has watermark 0, so
the first sync's incremental predicate is `last_modified_ts > 0`; since
every stored watermark is a non-negative epoch-millisecond value, rows with
`last_modified_ts ≤ 0` are never pulled by any sync of the table. -/
theorem missing_metadata_watermark_zero :
    (∀ (meta : SyncMeta) name, meta.find? (fun p => p.1 == name) = none →
      get_last_sync_ts meta name = 0) ∧
    (∀ name, get_last_sync_ts [] name = 0) ∧
    make_incremental_sql "any.path" "last_modified_ts" 0 =
      "SELECT * FROM any.path WHERE last_modified_ts > 0" ∧
    (∀ (w : Nat) (source : Table) (r : Row), r.last_modified_ts ≤ 0 →
      r ∉ fakeToArrow source (w : Int)) := by
  refine ⟨?_, fun name => rfl, rfl, ?_⟩
  · intro meta name h
    simp [get_last_sync_ts, h]
  · intro w source r hle hmem
    simp only [fakeToArrow, List.mem_filter, decide_eq_true_eq] at hmem
    omega

/-- Witness for `missing_metadata_watermark_zero`: a metadata table holding
only another name yields watermark 0, and a row stamped `-5` is not pulled
at watermark 0. -/
theorem missing_metadata_watermark_zero_witness :
    get_last_sync_ts [("other_table", 7)] "demo_table" = 0 ∧
    (⟨1, "x", -5⟩ : Row) ∉ fakeToArrow [⟨1, "x", -5⟩] ((0 : Nat) : Int) := by
  obtain ⟨h1, -, -, h4⟩ := missing_metadata_watermark_zero
  exact ⟨h1 [("other_table", 7)] "demo_table" (by decide),
    h4 0 [⟨1, "x", -5⟩] ⟨1, "x", -5⟩ (by decide)⟩

end Incremental

namespace Databridge

/-- Claim C1: `should_run_query` returns true when the force flag is set, when
no prior log row exists, when the most recent row's timestamp is null, or
when its status is `failed`; otherwise it returns true iff the elapsed time
since the last run is `≥` the frequency window (`now` → 1 s, `daily` → 12 h,
`weekly` → 1 week, `quarterly` → 120 days, unrecognized → 1 week).  In
particular a prior successful run exactly 12 hours ago with frequency
`daily` yields true, and 11 h 59 min ago yields false. -/
theorem should_run_query_correct :
    (∀ info freq now, should_run_query true info freq now = true) ∧
    (∀ freq now, should_run_query false none freq now = true) ∧
    (∀ f st freq now, should_run_query false (some (none, f, st)) freq now = true) ∧
    (∀ t f st freq now, statusFailed st = true →
      should_run_query false (some (some t, f, st)) freq now = true) ∧
    (∀ t f st freq now, statusFailed st = false →
      (should_run_query false (some (some t, f, st)) freq now = true ↔
        now - t ≥ windowSecs freq)) ∧
    (windowSecs "now" = 1 ∧ windowSecs "daily" = 43200 ∧
      windowSecs "weekly" = 604800 ∧ windowSecs "quarterly" = 10368000) ∧
    (∀ freq, freq ≠ "now" → freq ≠ "daily" → freq ≠ "weekly" →
      freq ≠ "quarterly" → windowSecs freq = 604800) ∧
    (∀ t now, now - t = 43200 →
      should_run_query false (some (some t, "daily", some "success")) "daily" now = true) ∧
    (∀ t now, now - t = 43140 →
      should_run_query false (some (some t, "daily", some "success")) "daily" now = false) := by
  refine ⟨fun _ _ _ => rfl, fun _ _ => rfl, fun _ _ _ _ => rfl, ?_, ?_, ?_, ?_, ?_, ?_⟩
  · intro t f st freq now h
    simp [should_run_query, h]
  · intro t f st freq now h
    simp [should_run_query, h]
  · refine ⟨rfl, rfl, rfl, rfl⟩
  · intro freq h1 h2 h3 h4
    simp only [windowSecs]
    rw [if_neg (by simpa using h1), if_neg (by simpa using h2),
      if_neg (by simpa using h3), if_neg (by simpa using h4)]
    norm_num
  · intro t now h
    simp [should_run_query, statusFailed, windowSecs, h]
  · intro t now h
    simp [should_run_query, statusFailed, windowSecs, h]
    decide

/-- Witness for `should_run_query_correct` at concrete inputs: a successful
run exactly 12 hours ago is due again under `daily`, one 11 h 59 min ago is
not. -/
theorem should_run_query_correct_witness :
    should_run_query false (some (some 0, "daily", some "success")) "daily" 43200 = true ∧
    should_run_query false (some (some 0, "daily", some "success")) "daily" 43140 = false := by
  obtain ⟨-, -, -, -, -, -, -, h12, h1159⟩ := should_run_query_correct
  exact ⟨h12 0 43200 (by decide), h1159 0 43140 (by decide)⟩

end Databridge
